import Mathlib

/-!
Verification development for the MediaPipe JNI shim (`mediapipe_jni.cc`).

The shim bridges MediaPipe's C API for hand-landmark and gesture
recognition to a JVM consumer.  This file gives a shallow embedding of
its result packers (`hl_on_result`, `gr_deliver_result`), the thread
attach helper (`attach_jvm`), the frame-submission entry points
(`nativeDetectAsync`, `nativeRecognizeGestureForVideo`) and the
session-lifecycle entry points (`nativeCreateLandmarker`,
`nativeCloseLandmarker` and their gesture counterparts), and proves the
documented buffer-layout, callback and lifecycle properties.

Float values carry no arithmetic here (they are copied, or set to the
constants 0, 1 or a small hand count), so they are modelled exactly by
rationals.  A JVM array is modelled by its allocated length plus its
contents as a total function; JNI's `NewFloatArray` / `NewObjectArray`
return zero- resp. null-initialised storage.
-/

/-- MediaPipe status code: `kMpOk` or some error code. -/
inductive MpStatus where
  | kMpOk : MpStatus
  | kMpErr : Nat → MpStatus
deriving DecidableEq, Repr

/-- One classification category (`category_name` may be a null pointer
in C, hence `Option`). -/
structure Category where
  category_name : Option String
  score : ℚ
deriving DecidableEq, Repr

/-- A `Categories` block: `categories` array with its count (the count
is the list length). -/
structure Categories where
  categories : List Category
deriving DecidableEq, Repr

/-- One normalized landmark point. -/
structure NormalizedLandmark where
  x : ℚ
  y : ℚ
  z : ℚ
deriving DecidableEq, Repr

/-- `NormalizedLandmarks`: landmark array with its count. -/
structure NormalizedLandmarks where
  landmarks : List NormalizedLandmark
deriving DecidableEq, Repr

/-- `HandLandmarkerResult`: per-hand landmark lists and handedness
blocks (`hand_landmarks_count` / `handedness_count` are the lengths). -/
structure HandLandmarkerResult where
  hand_landmarks : List NormalizedLandmarks
  handedness : List Categories
deriving DecidableEq, Repr

/-- `GestureRecognizerResult`: landmarks, handedness and gesture blocks. -/
structure GestureRecognizerResult where
  hand_landmarks : List NormalizedLandmarks
  handedness : List Categories
  gestures : List Categories
deriving DecidableEq, Repr

/-- A JVM array: allocated length plus contents.  `NewFloatArray n`
is `⟨n, fun _ => 0⟩`, `NewObjectArray n cls null` is `⟨n, fun _ => none⟩`. -/
structure JArray (α : Type) where
  size : Nat
  data : Nat → α

/-- A single element store `buf[i] = v`. -/
def JArray.write {α : Type} (a : JArray α) (i : Nat) (v : α) : JArray α :=
  ⟨a.size, fun j => if j = i then v else a.data j⟩

theorem JArray.write_data {α : Type} (a : JArray α) (i : Nat) (v : α) (j : Nat) :
    (a.write i v).data j = if j = i then v else a.data j := rfl

theorem JArray.write_size {α : Type} (a : JArray α) (i : Nat) (v : α) :
    (a.write i v).size = a.size := rfl

/-- The handedness flag computed for hand `h` (shared verbatim by
`hl_on_result` and `gr_deliver_result`): 1.0 when hand `h` has a
handedness block with at least one category whose non-null name starts
with `'R'`, else 0.0. -/
def handednessValue (handedness : List Categories) (h : Nat) : ℚ :=
  match handedness[h]? with
  | none => 0
  | some cs =>
    match cs.categories[0]? with
    | none => 0
    | some c =>
      match c.category_name with
      | none => 0
      | some s => if s.data.head? = some 'R' then 1 else 0

/-- `&result->hand_landmarks[h]` for an in-bounds `h` (out of bounds
never occurs: `h < numHands ≤ hand_landmarks_count`). -/
def landmarksOf (hls : List NormalizedLandmarks) (h : Nat) : List NormalizedLandmark :=
  (hls.getD h ⟨[]⟩).landmarks

/-- One iteration of the landmark-writing loop: write `x`, `y`, `z` of
point `i` at `start + i*3`, `start + i*3 + 1`, `start + i*3 + 2`. -/
def lmStep (start : Nat) (lms : List NormalizedLandmark) (b : JArray ℚ) (i : Nat) :
    JArray ℚ :=
  let lm := lms.getD i ⟨0, 0, 0⟩
  ((b.write (start + i * 3) lm.x).write (start + i * 3 + 1) lm.y).write
    (start + i * 3 + 2) lm.z

/-- The landmark-writing loop shared by both packers: it runs for
`i < landmarks_count` and `i < 21`. -/
def writeLandmarks (start : Nat) (lms : List NormalizedLandmark) (buf : JArray ℚ) : JArray ℚ :=
  (List.range (min lms.length 21)).foldl (lmStep start lms) buf

/-- Body of the per-hand loop of `hl_on_result`: at `base = 1 + h*64`
write the handedness flag, then the landmarks from `base + 1`. -/
def hl_packHand (r : HandLandmarkerResult) (buf : JArray ℚ) (h : Nat) : JArray ℚ :=
  let base := 1 + h * 64
  writeLandmarks (base + 1) (landmarksOf r.hand_landmarks h)
    (buf.write base (handednessValue r.handedness h))

/-- The float buffer built by `hl_on_result` once its guard has passed:
allocate `1 + numHands*64` zeroed floats, store `numHands` at slot 0,
then run the per-hand loop. -/
def hl_buffer (r : HandLandmarkerResult) : JArray ℚ :=
  let numHands := min r.hand_landmarks.length 2
  let a0 : JArray ℚ :=
    JArray.write ⟨1 + numHands * 64, fun _ => 0⟩ 0 (numHands : ℚ)
  (List.range numHands).foldl (fun b h => hl_packHand r b h) a0

/-- The packing step of `hl_on_result` (lines 76-110): the float array
passed to the Java callback, `none` when `jResult` stays null
(failed status, null result, or zero hands). -/
def hl_pack (status : MpStatus) (result : Option HandLandmarkerResult) :
    Option (JArray ℚ) :=
  match result with
  | none => none
  | some r =>
    if status = MpStatus.kMpOk ∧ 0 < r.hand_landmarks.length then some (hl_buffer r)
    else none

/-- The first gesture category of hand `h`, when
`h < gestures_count && categories_count > 0`. -/
def firstGestureCategory (r : GestureRecognizerResult) (h : Nat) : Option Category :=
  match r.gestures[h]? with
  | none => none
  | some cs => cs.categories[0]?

/-- Body of the per-hand loop of `gr_deliver_result`: at
`base = 1 + h*65` write the handedness flag, the gesture score at
`base + 1` (0.0 when no gesture category), the gesture name into the
string array slot `h` (left null when absent), then the landmarks from
`base + 2`. -/
def gr_packHand (r : GestureRecognizerResult)
    (acc : JArray ℚ × JArray (Option String)) (h : Nat) :
    JArray ℚ × JArray (Option String) :=
  let base := 1 + h * 65
  let buf := acc.1.write base (handednessValue r.handedness h)
  let gcat := firstGestureCategory r h
  let gestureScore : ℚ := match gcat with | none => 0 | some c => c.score
  let gestureName : Option String := match gcat with | none => none | some c => c.category_name
  let buf := buf.write (base + 1) gestureScore
  let names := match gestureName with
    | none => acc.2
    | some s => acc.2.write h s
  (writeLandmarks (base + 2) (landmarksOf r.hand_landmarks h) buf, names)

/-- The float buffer and gesture-name array built by
`gr_deliver_result` once its guard has passed: `1 + numHands*65` zeroed
floats with `numHands` at slot 0, and `numHands` null string slots. -/
def gr_buffers (r : GestureRecognizerResult) :
    JArray ℚ × JArray (Option String) :=
  let numHands := min r.hand_landmarks.length 2
  let buf0 : JArray ℚ :=
    JArray.write ⟨1 + numHands * 65, fun _ => 0⟩ 0 (numHands : ℚ)
  let names0 : JArray (Option String) := ⟨numHands, fun _ => none⟩
  (List.range numHands).foldl (fun acc h => gr_packHand r acc h) (buf0, names0)

/-- The packing step of `gr_deliver_result` (lines 134-190): both
JVM arrays stay null when the result is null or reports zero hands. -/
def gr_pack (result : Option GestureRecognizerResult) :
    Option (JArray ℚ × JArray (Option String)) :=
  match result with
  | none => none
  | some r =>
    if 0 < r.hand_landmarks.length then some (gr_buffers r) else none

/-- The arguments `gr_deliver_result` hands to the Java callback
`onResult(float[], String[], long)`. -/
def gr_deliver_result (result : Option GestureRecognizerResult) (ts : Int) :
    Option (JArray ℚ) × Option (JArray (Option String)) × Int :=
  match gr_pack result with
  | none => (none, none, ts)
  | some p => (some p.1, some p.2, ts)

/-! ## Runtime callback bridge: thread attachment and delivery -/

/-- Outcome of `g_jvm->GetEnv` on the engine's callback thread:
`jniOk` when the thread is already attached to the JVM, `jniEDetached`
when it is not, `jniErr` for any other failure. -/
inductive GetEnvCode where
  | jniOk : GetEnvCode
  | jniEDetached : GetEnvCode
  | jniErr : GetEnvCode
deriving DecidableEq, Repr

/-- Result of `attach_jvm`: whether a usable `env` was obtained and the
`needs_detach` flag (set exactly when `AttachCurrentThread` was run and
succeeded). -/
structure AttachResult where
  env_ok : Bool
  needs_detach : Bool
deriving DecidableEq, Repr

/-- `attach_jvm` (lines 49-62): attach the current thread when `GetEnv`
reports `JNI_EDETACHED`; `attach_ok` is whether `AttachCurrentThread`
succeeds. -/
def attach_jvm (genv : GetEnvCode) (attach_ok : Bool) : AttachResult :=
  match genv with
  | GetEnvCode.jniOk => ⟨true, false⟩
  | GetEnvCode.jniEDetached =>
      if attach_ok then ⟨true, true⟩ else ⟨false, false⟩
  | GetEnvCode.jniErr => ⟨false, false⟩

/-- Observable effects of one `hl_on_result` callback from the engine:
the Java callback invocation it performs (target global ref, float
array or null, timestamp), whether the bridge attached the thread
itself, whether it detached before returning, and whether the
per-call local reference was released (deleted, or never created). -/
structure HlRun where
  invocation : Option (Nat × Option (JArray ℚ) × Int)
  attachedByBridge : Bool
  detachedAtEnd : Bool
  localRefReleased : Bool

/-- `hl_on_result` (lines 68-117).  `jvm_set` is whether `g_jvm` is
set, `cb` the current `g_hl_callback` global reference.  Early return
when either is null; then attach via `attach_jvm`; on success invoke
the callback with the packed array (or null) and finally detach iff
the bridge attached. -/
def hl_on_result (jvm_set : Bool) (cb : Option Nat) (genv : GetEnvCode)
    (attach_ok : Bool) (status : MpStatus) (result : Option HandLandmarkerResult)
    (ts : Int) : HlRun :=
  match cb with
  | none => ⟨none, false, false, false⟩
  | some c =>
    if jvm_set = false then ⟨none, false, false, false⟩
    else
      let ar := attach_jvm genv attach_ok
      if ar.env_ok then
        ⟨some (c, hl_pack status result, ts), ar.needs_detach, ar.needs_detach, true⟩
      else ⟨none, ar.needs_detach, false, false⟩

/-! ## Frame submission entry points -/

/-- Observable effects of one `nativeDetectAsync` call.  The statuses
of the external `MpImageCreateFromUint8Data` and
`MpHandLandmarkerDetectAsync` calls are oracle inputs; the byte array
content is irrelevant, only its length matters.  `bytesRequested` is
the `dataSize` handed to the image constructor (the constructor reads
that many bytes from the raw pointer; it cannot observe the Java
array's length, which the shim never queries), and `outOfBoundsRead`
records that this read runs past the supplied array. -/
structure DetectRun where
  imageCreated : Bool
  submitted : Bool
  imageFreed : Bool
  bytesRequested : Nat
  outOfBoundsRead : Bool
deriving DecidableEq, Repr

/-- `nativeDetectAsync` (lines 258-289): compute `dataSize = width *
height * 3`, build the image, submit it to the engine, and free the
image only when the submit itself fails. -/
def nativeDetectAsync (pixelData : List Nat) (width height : Nat)
    (imgStatus detectStatus : MpStatus) : DetectRun :=
  let dataSize := width * height * 3
  let oob := decide (pixelData.length < dataSize)
  if imgStatus ≠ MpStatus.kMpOk then ⟨false, false, false, dataSize, oob⟩
  else if detectStatus ≠ MpStatus.kMpOk then ⟨true, true, true, dataSize, oob⟩
  else ⟨true, true, false, dataSize, oob⟩

/-- Observable effects of one `nativeRecognizeGestureForVideo` call:
whether the image was built, whether recognition ran and succeeded,
whether the shim freed the image, the `jboolean` return value, and the
callback invocation performed by `gr_deliver_result` (if any). -/
structure GestureRun where
  imageCreated : Bool
  recognized : Bool
  imageFreed : Bool
  returnValue : Bool
  invocation : Option (Option (JArray ℚ) × Option (JArray (Option String)) × Int)
  bytesRequested : Nat
  outOfBoundsRead : Bool

/-- `nativeRecognizeGestureForVideo` (lines 362-403): build the image
(`dataSize = width * height * 3`), run synchronous recognition, and on
success deliver the result via `gr_deliver_result` before returning
`JNI_TRUE`.  Neither failure branch frees the image. -/
def nativeRecognizeGestureForVideo (pixelData : List Nat) (width height : Nat)
    (imgStatus recStatus : MpStatus) (result : GestureRecognizerResult)
    (ts : Int) : GestureRun :=
  let dataSize := width * height * 3
  let oob := decide (pixelData.length < dataSize)
  if imgStatus ≠ MpStatus.kMpOk then ⟨false, false, false, false, none, dataSize, oob⟩
  else if recStatus ≠ MpStatus.kMpOk then ⟨true, false, false, false, none, dataSize, oob⟩
  else ⟨true, true, false, true, some (gr_deliver_result (some result) ts), dataSize, oob⟩

/-! ## Session lifecycle: callback registration and close -/

/-- The two process-wide callback global references (`g_hl_callback`,
`g_gr_callback`), plus the trace of global references the shim has
released with `DeleteGlobalRef`. -/
structure BridgeRefs where
  hl_cb : Option Nat
  gr_cb : Option Nat
  released : List Nat
deriving DecidableEq, Repr

/-- Callback registration in `nativeCreateLandmarker` (lines 216-219):
delete the previous global reference if present, then install a new
one for `cb`. -/
def nativeCreateLandmarker (st : BridgeRefs) (cb : Nat) : BridgeRefs :=
  match st.hl_cb with
  | some old => { st with hl_cb := some cb, released := st.released ++ [old] }
  | none => { st with hl_cb := some cb }

/-- Callback registration in `nativeCreateGestureRecognizer`
(lines 313-316). -/
def nativeCreateGestureRecognizer (st : BridgeRefs) (cb : Nat) : BridgeRefs :=
  match st.gr_cb with
  | some old => { st with gr_cb := some cb, released := st.released ++ [old] }
  | none => { st with gr_cb := some cb }

/-- Externally observable actions of a close call. -/
inductive CloseAction where
  | engineClose : Int → CloseAction
  | releaseCallback : Nat → CloseAction
deriving DecidableEq, Repr

/-- `nativeCloseLandmarker` (lines 292-305): always call
`MpHandLandmarkerClose` on the passed handle, then release and clear
the callback reference if one is held. -/
def nativeCloseLandmarker (handle : Int) (cb : Option Nat) :
    Option Nat × List CloseAction :=
  match cb with
  | some r => (none, [CloseAction.engineClose handle, CloseAction.releaseCallback r])
  | none => (none, [CloseAction.engineClose handle])

/-- `nativeCloseGestureRecognizer` (lines 406-419): same shape as
`nativeCloseLandmarker`. -/
def nativeCloseGestureRecognizer (handle : Int) (cb : Option Nat) :
    Option Nat × List CloseAction :=
  match cb with
  | some r => (none, [CloseAction.engineClose handle, CloseAction.releaseCallback r])
  | none => (none, [CloseAction.engineClose handle])

/-- `hand_landmarks_count` of a possibly-null result pointer. -/
def hlHandCount : Option HandLandmarkerResult → Nat
  | none => 0
  | some r => r.hand_landmarks.length

/-! ## Concrete sample results used by the witnesses -/

/-- A hand with two known landmark points (the remaining 19 are absent). -/
def hand0 : NormalizedLandmarks :=
  ⟨[⟨1/2, 1/4, 1/8⟩, ⟨3/10, 7/10, 9/10⟩]⟩

/-- A fabricated landmarker result reporting five hands, the first labelled
`Right`, the second `Left`. -/
def hr5 : HandLandmarkerResult :=
  ⟨List.replicate 5 hand0,
   [⟨[⟨some "Right", 9/10⟩]⟩, ⟨[⟨some "Left", 8/10⟩]⟩]⟩

/-- A fabricated gesture result reporting five hands, with one gesture
category for the first hand. -/
def gres5 : GestureRecognizerResult :=
  ⟨List.replicate 5 hand0,
   [⟨[⟨some "Right", 9/10⟩]⟩, ⟨[⟨some "Left", 8/10⟩]⟩],
   [⟨[⟨some "Thumb_Up", 3/4⟩]⟩]⟩

/-- A gesture result reporting zero hands. -/
def grZero : GestureRecognizerResult := ⟨[], [], []⟩

/-- A well-sized 1x1 pixel buffer (3 bytes). -/
def pix3 : List Nat := [0, 0, 0]

/-! ## Generic lemmas about the indexed write loops

Both packers are `foldl`s over `List.range n`, each iteration writing
only into its own slot region.  The three lemmas below let us read one
observation (one buffer cell, or the array size) through such a loop. -/

theorem foldl_range_invariant {σ α : Type} (step : σ → Nat → σ) (obs : σ → α) :
    ∀ (n : Nat) (s : σ), (∀ t i, i < n → obs (step t i) = obs t) →
      obs ((List.range n).foldl step s) = obs s := by
  intro n
  induction n with
  | zero => intro s _; rfl
  | succ m ih =>
    intro s H
    rw [List.range_succ, List.foldl_append, List.foldl_cons, List.foldl_nil]
    rw [H _ m (Nat.lt_succ_self m)]
    exact ih s (fun t i hi => H t i (Nat.lt_succ_of_lt hi))

theorem foldl_range_congr {σ α : Type} (step : σ → Nat → σ) (obs : σ → α)
    (Hcongr : ∀ t u i, obs t = obs u → obs (step t i) = obs (step u i)) :
    ∀ (n : Nat) (s u : σ), obs s = obs u →
      obs ((List.range n).foldl step s) = obs ((List.range n).foldl step u) := by
  intro n
  induction n with
  | zero => intro s u hsu; exact hsu
  | succ m ih =>
    intro s u hsu
    simp only [List.range_succ, List.foldl_append, List.foldl_cons, List.foldl_nil]
    exact Hcongr _ _ m (ih s u hsu)

theorem foldl_range_at {σ α : Type} (step : σ → Nat → σ) (obs : σ → α) (h : Nat)
    (Hlow : ∀ t i, i < h → obs (step t i) = obs t)
    (Hhigh : ∀ t i, h < i → obs (step t i) = obs t)
    (Hcongr : ∀ t u, obs t = obs u → obs (step t h) = obs (step u h)) :
    ∀ (n : Nat) (s : σ), h < n →
      obs ((List.range n).foldl step s) = obs (step s h) := by
  intro n
  induction n with
  | zero => intro s hh; exact absurd hh (Nat.not_lt_zero h)
  | succ m ih =>
    intro s hh
    rw [List.range_succ, List.foldl_append, List.foldl_cons, List.foldl_nil]
    by_cases hlt : h < m
    · rw [Hhigh _ m hlt]
      exact ih s hlt
    · have heq : h = m := by omega
      subst heq
      exact Hcongr _ _ (foldl_range_invariant step obs h s Hlow)

/-! ## Cell-level facts about `writeLandmarks` -/

theorem lmStep_data_eq (start : Nat) (lms : List NormalizedLandmark)
    (t : JArray ℚ) (i j : Nat)
    (hj : j < start + i * 3 ∨ start + i * 3 + 3 ≤ j) :
    (lmStep start lms t i).data j = t.data j := by
  simp only [lmStep, JArray.write_data]
  rw [if_neg (by omega), if_neg (by omega), if_neg (by omega)]

theorem lmStep_data_congr (start : Nat) (lms : List NormalizedLandmark)
    (t u : JArray ℚ) (i j : Nat) (htu : t.data j = u.data j) :
    (lmStep start lms t i).data j = (lmStep start lms u i).data j := by
  simp only [lmStep, JArray.write_data]
  split_ifs <;> first | rfl | exact htu

theorem writeLandmarks_size (start : Nat) (lms : List NormalizedLandmark)
    (buf : JArray ℚ) : (writeLandmarks start lms buf).size = buf.size :=
  foldl_range_invariant (lmStep start lms) JArray.size _ buf (fun _ _ _ => rfl)

theorem writeLandmarks_data_eq (start : Nat) (lms : List NormalizedLandmark)
    (buf : JArray ℚ) (j : Nat)
    (hj : j < start ∨ start + min lms.length 21 * 3 ≤ j) :
    (writeLandmarks start lms buf).data j = buf.data j :=
  foldl_range_invariant (lmStep start lms) (fun b : JArray ℚ => b.data j) _ buf
    (fun t i hi => lmStep_data_eq start lms t i j (by omega))

theorem writeLandmarks_data_congr (start : Nat) (lms : List NormalizedLandmark)
    (t u : JArray ℚ) (j : Nat) (htu : t.data j = u.data j) :
    (writeLandmarks start lms t).data j = (writeLandmarks start lms u).data j :=
  foldl_range_congr (lmStep start lms) (fun b : JArray ℚ => b.data j)
    (fun a b i hab => lmStep_data_congr start lms a b i j hab) _ t u htu

theorem writeLandmarks_data_at (start : Nat) (lms : List NormalizedLandmark)
    (buf : JArray ℚ) (i : Nat) (hi : i < lms.length) (hi21 : i < 21) :
    (writeLandmarks start lms buf).data (start + i * 3) = (lms.getD i ⟨0, 0, 0⟩).x ∧
    (writeLandmarks start lms buf).data (start + i * 3 + 1) = (lms.getD i ⟨0, 0, 0⟩).y ∧
    (writeLandmarks start lms buf).data (start + i * 3 + 2) = (lms.getD i ⟨0, 0, 0⟩).z := by
  have hin : i < min lms.length 21 := lt_min hi hi21
  have key : ∀ j : Nat, start + i * 3 ≤ j → j < start + i * 3 + 3 →
      (writeLandmarks start lms buf).data j = (lmStep start lms buf i).data j :=
    fun j hj1 hj2 =>
      foldl_range_at (lmStep start lms) (fun b : JArray ℚ => b.data j) i
        (fun t k hk => lmStep_data_eq start lms t k j (by omega))
        (fun t k hk => lmStep_data_eq start lms t k j (by omega))
        (fun t u htu => lmStep_data_congr start lms t u i j htu) _ buf hin
  refine ⟨?_, ?_, ?_⟩
  · rw [key (start + i * 3) (by omega) (by omega)]
    simp only [lmStep, JArray.write_data]
    rw [if_neg (by omega), if_neg (by omega)]
    simp
  · rw [key (start + i * 3 + 1) (by omega) (by omega)]
    simp only [lmStep, JArray.write_data]
    rw [if_neg (by omega)]
    simp
  · rw [key (start + i * 3 + 2) (by omega) (by omega)]
    simp only [lmStep, JArray.write_data]
    simp

/-! ## Cell-level facts about the hand-landmarker packer -/

theorem hl_packHand_size (r : HandLandmarkerResult) (t : JArray ℚ) (h : Nat) :
    (hl_packHand r t h).size = t.size := by
  simp only [hl_packHand]
  rw [writeLandmarks_size]
  rfl

theorem hl_packHand_data_eq (r : HandLandmarkerResult) (t : JArray ℚ) (i j : Nat)
    (hj : j < 1 + i * 64 ∨ 1 + i * 64 + 64 ≤ j) :
    (hl_packHand r t i).data j = t.data j := by
  simp only [hl_packHand]
  rw [writeLandmarks_data_eq _ _ _ j (by
    have hm : min (landmarksOf r.hand_landmarks i).length 21 ≤ 21 := min_le_right _ _
    omega)]
  rw [JArray.write_data, if_neg (by omega)]

theorem hl_packHand_data_congr (r : HandLandmarkerResult) (t u : JArray ℚ) (h j : Nat)
    (htu : t.data j = u.data j) :
    (hl_packHand r t h).data j = (hl_packHand r u h).data j := by
  simp only [hl_packHand]
  apply writeLandmarks_data_congr
  simp only [JArray.write_data]
  split_ifs <;> first | rfl | exact htu

theorem hl_packHand_data_base (r : HandLandmarkerResult) (t : JArray ℚ) (h : Nat) :
    (hl_packHand r t h).data (1 + h * 64) = handednessValue r.handedness h := by
  simp only [hl_packHand]
  rw [writeLandmarks_data_eq _ _ _ _ (Or.inl (by omega))]
  rw [JArray.write_data, if_pos rfl]

theorem hl_buffer_size (r : HandLandmarkerResult) :
    (hl_buffer r).size = 1 + min r.hand_landmarks.length 2 * 64 := by
  simp only [hl_buffer]
  refine Eq.trans (foldl_range_invariant (fun b h => hl_packHand r b h)
    (fun b : JArray ℚ => b.size) _ _ (fun t i _ => hl_packHand_size r t i)) ?_
  rfl

theorem hl_buffer_data0 (r : HandLandmarkerResult) :
    (hl_buffer r).data 0 = ((min r.hand_landmarks.length 2 : Nat) : ℚ) := by
  simp only [hl_buffer]
  refine Eq.trans (foldl_range_invariant (fun b h => hl_packHand r b h)
    (fun b : JArray ℚ => b.data 0) _ _
    (fun t i _ => hl_packHand_data_eq r t i 0 (Or.inl (by omega)))) ?_
  simp [JArray.write_data]

theorem hl_buffer_data_slot (r : HandLandmarkerResult) (h j : Nat)
    (hh : h < min r.hand_landmarks.length 2)
    (hj1 : 1 + h * 64 ≤ j) (hj2 : j < 1 + h * 64 + 64) :
    (hl_buffer r).data j =
      (hl_packHand r
        (JArray.write ⟨1 + min r.hand_landmarks.length 2 * 64, fun _ => 0⟩ 0
          ((min r.hand_landmarks.length 2 : Nat) : ℚ)) h).data j := by
  simp only [hl_buffer]
  exact foldl_range_at (fun b k => hl_packHand r b k) (fun b : JArray ℚ => b.data j) h
    (fun t k hk => hl_packHand_data_eq r t k j (Or.inr (by omega)))
    (fun t k hk => hl_packHand_data_eq r t k j (Or.inl (by omega)))
    (fun t u htu => hl_packHand_data_congr r t u h j htu) _ _ hh

theorem hl_buffer_base (r : HandLandmarkerResult) (h : Nat)
    (hh : h < min r.hand_landmarks.length 2) :
    (hl_buffer r).data (1 + h * 64) = handednessValue r.handedness h := by
  rw [hl_buffer_data_slot r h (1 + h * 64) hh (le_refl _) (by omega)]
  exact hl_packHand_data_base r _ h

theorem hl_buffer_lm (r : HandLandmarkerResult) (h i : Nat)
    (hh : h < min r.hand_landmarks.length 2)
    (hi : i < (landmarksOf r.hand_landmarks h).length) (hi21 : i < 21) :
    (hl_buffer r).data (1 + h * 64 + 1 + i * 3) =
      ((landmarksOf r.hand_landmarks h).getD i ⟨0, 0, 0⟩).x ∧
    (hl_buffer r).data (1 + h * 64 + 1 + i * 3 + 1) =
      ((landmarksOf r.hand_landmarks h).getD i ⟨0, 0, 0⟩).y ∧
    (hl_buffer r).data (1 + h * 64 + 1 + i * 3 + 2) =
      ((landmarksOf r.hand_landmarks h).getD i ⟨0, 0, 0⟩).z := by
  refine ⟨?_, ?_, ?_⟩
  · rw [hl_buffer_data_slot r h _ hh (by omega) (by omega)]
    simp only [hl_packHand]
    exact (writeLandmarks_data_at (1 + h * 64 + 1) _ _ i hi hi21).1
  · rw [hl_buffer_data_slot r h _ hh (by omega) (by omega)]
    simp only [hl_packHand]
    exact (writeLandmarks_data_at (1 + h * 64 + 1) _ _ i hi hi21).2.1
  · rw [hl_buffer_data_slot r h _ hh (by omega) (by omega)]
    simp only [hl_packHand]
    exact (writeLandmarks_data_at (1 + h * 64 + 1) _ _ i hi hi21).2.2

theorem hl_buffer_pad (r : HandLandmarkerResult) (h i k : Nat)
    (hh : h < min r.hand_landmarks.length 2)
    (hi : (landmarksOf r.hand_landmarks h).length ≤ i) (hi21 : i < 21) (hk : k < 3) :
    (hl_buffer r).data (1 + h * 64 + 1 + i * 3 + k) = 0 := by
  rw [hl_buffer_data_slot r h _ hh (by omega) (by omega)]
  simp only [hl_packHand]
  rw [writeLandmarks_data_eq _ _ _ _ (Or.inr (by
    have hm : min (landmarksOf r.hand_landmarks h).length 21 ≤
        (landmarksOf r.hand_landmarks h).length := min_le_left _ _
    omega))]
  rw [JArray.write_data, if_neg (by omega)]
  rw [JArray.write_data, if_neg (by omega)]

/-! ## Cell-level facts about the gesture-recognizer packer -/

theorem gr_packHand_fst_size (r : GestureRecognizerResult)
    (acc : JArray ℚ × JArray (Option String)) (h : Nat) :
    (gr_packHand r acc h).1.size = acc.1.size := by
  simp only [gr_packHand]
  rw [writeLandmarks_size]
  rfl

theorem gr_packHand_fst_data_eq (r : GestureRecognizerResult)
    (acc : JArray ℚ × JArray (Option String)) (i j : Nat)
    (hj : j < 1 + i * 65 ∨ 1 + i * 65 + 65 ≤ j) :
    (gr_packHand r acc i).1.data j = acc.1.data j := by
  simp only [gr_packHand]
  rw [writeLandmarks_data_eq _ _ _ j (by
    have hm : min (landmarksOf r.hand_landmarks i).length 21 ≤ 21 := min_le_right _ _
    omega)]
  rw [JArray.write_data, if_neg (by omega), JArray.write_data, if_neg (by omega)]

theorem gr_packHand_fst_congr (r : GestureRecognizerResult)
    (t u : JArray ℚ × JArray (Option String)) (h j : Nat)
    (htu : t.1.data j = u.1.data j) :
    (gr_packHand r t h).1.data j = (gr_packHand r u h).1.data j := by
  simp only [gr_packHand]
  apply writeLandmarks_data_congr
  simp only [JArray.write_data]
  split_ifs <;> first | rfl | exact htu

theorem gr_packHand_fst_base (r : GestureRecognizerResult)
    (acc : JArray ℚ × JArray (Option String)) (h : Nat) :
    (gr_packHand r acc h).1.data (1 + h * 65) = handednessValue r.handedness h := by
  simp only [gr_packHand]
  rw [writeLandmarks_data_eq _ _ _ _ (Or.inl (by omega))]
  rw [JArray.write_data, if_neg (by omega), JArray.write_data, if_pos rfl]

theorem gr_packHand_fst_score (r : GestureRecognizerResult)
    (acc : JArray ℚ × JArray (Option String)) (h : Nat) :
    (gr_packHand r acc h).1.data (1 + h * 65 + 1) =
      (match firstGestureCategory r h with | none => (0 : ℚ) | some c => c.score) := by
  simp only [gr_packHand]
  rw [writeLandmarks_data_eq _ _ _ _ (Or.inl (by omega))]
  rw [JArray.write_data, if_pos rfl]

theorem gr_packHand_snd_eq (r : GestureRecognizerResult)
    (acc : JArray ℚ × JArray (Option String)) (i q : Nat) (hq : q ≠ i) :
    (gr_packHand r acc i).2.data q = acc.2.data q := by
  simp only [gr_packHand]
  cases hg : firstGestureCategory r i with
  | none => simp [hg]
  | some c =>
    cases hn : c.category_name with
    | none => simp [hg, hn]
    | some s =>
      simp only [hg, hn, JArray.write_data]
      rw [if_neg hq]

theorem gr_packHand_snd_at (r : GestureRecognizerResult)
    (acc : JArray ℚ × JArray (Option String)) (i : Nat) :
    (gr_packHand r acc i).2.data i =
      (match firstGestureCategory r i with
       | none => acc.2.data i
       | some c =>
         match c.category_name with
         | none => acc.2.data i
         | some s => some s) := by
  simp only [gr_packHand]
  cases hg : firstGestureCategory r i with
  | none => simp [hg]
  | some c =>
    cases hn : c.category_name with
    | none => simp [hg, hn]
    | some s => simp [hg, hn, JArray.write_data]

theorem gr_packHand_snd_congr (r : GestureRecognizerResult)
    (t u : JArray ℚ × JArray (Option String)) (q : Nat)
    (htu : t.2.data q = u.2.data q) :
    (gr_packHand r t q).2.data q = (gr_packHand r u q).2.data q := by
  rw [gr_packHand_snd_at, gr_packHand_snd_at]
  cases firstGestureCategory r q with
  | none => exact htu
  | some c =>
    show (match c.category_name with
          | none => t.2.data q
          | some s => some s) =
         (match c.category_name with
          | none => u.2.data q
          | some s => some s)
    cases c.category_name with
    | none => exact htu
    | some s => rfl

theorem gr_buffers_fst_size (r : GestureRecognizerResult) :
    (gr_buffers r).1.size = 1 + min r.hand_landmarks.length 2 * 65 := by
  simp only [gr_buffers]
  refine Eq.trans (foldl_range_invariant (fun acc h => gr_packHand r acc h)
    (fun acc : JArray ℚ × JArray (Option String) => acc.1.size) _ _
    (fun t i _ => gr_packHand_fst_size r t i)) ?_
  rfl

theorem gr_buffers_fst_data0 (r : GestureRecognizerResult) :
    (gr_buffers r).1.data 0 = ((min r.hand_landmarks.length 2 : Nat) : ℚ) := by
  simp only [gr_buffers]
  refine Eq.trans (foldl_range_invariant (fun acc h => gr_packHand r acc h)
    (fun acc : JArray ℚ × JArray (Option String) => acc.1.data 0) _ _
    (fun t i _ => gr_packHand_fst_data_eq r t i 0 (Or.inl (by omega)))) ?_
  simp [JArray.write_data]

theorem gr_buffers_fst_slot (r : GestureRecognizerResult) (h j : Nat)
    (hh : h < min r.hand_landmarks.length 2)
    (hj1 : 1 + h * 65 ≤ j) (hj2 : j < 1 + h * 65 + 65) :
    (gr_buffers r).1.data j =
      (gr_packHand r
        (JArray.write ⟨1 + min r.hand_landmarks.length 2 * 65, fun _ => 0⟩ 0
           ((min r.hand_landmarks.length 2 : Nat) : ℚ),
         (⟨min r.hand_landmarks.length 2, fun _ => none⟩ : JArray (Option String))) h).1.data j := by
  simp only [gr_buffers]
  exact foldl_range_at (fun acc k => gr_packHand r acc k)
    (fun acc : JArray ℚ × JArray (Option String) => acc.1.data j) h
    (fun t k hk => gr_packHand_fst_data_eq r t k j (Or.inr (by omega)))
    (fun t k hk => gr_packHand_fst_data_eq r t k j (Or.inl (by omega)))
    (fun t u htu => gr_packHand_fst_congr r t u h j htu) _ _ hh

theorem gr_buffers_base (r : GestureRecognizerResult) (h : Nat)
    (hh : h < min r.hand_landmarks.length 2) :
    (gr_buffers r).1.data (1 + h * 65) = handednessValue r.handedness h := by
  rw [gr_buffers_fst_slot r h (1 + h * 65) hh (le_refl _) (by omega)]
  exact gr_packHand_fst_base r _ h

theorem gr_buffers_score (r : GestureRecognizerResult) (h : Nat)
    (hh : h < min r.hand_landmarks.length 2) :
    (gr_buffers r).1.data (1 + h * 65 + 1) =
      (match firstGestureCategory r h with | none => (0 : ℚ) | some c => c.score) := by
  rw [gr_buffers_fst_slot r h (1 + h * 65 + 1) hh (by omega) (by omega)]
  exact gr_packHand_fst_score r _ h

theorem gr_buffers_lm (r : GestureRecognizerResult) (h i : Nat)
    (hh : h < min r.hand_landmarks.length 2)
    (hi : i < (landmarksOf r.hand_landmarks h).length) (hi21 : i < 21) :
    (gr_buffers r).1.data (1 + h * 65 + 2 + i * 3) =
      ((landmarksOf r.hand_landmarks h).getD i ⟨0, 0, 0⟩).x ∧
    (gr_buffers r).1.data (1 + h * 65 + 2 + i * 3 + 1) =
      ((landmarksOf r.hand_landmarks h).getD i ⟨0, 0, 0⟩).y ∧
    (gr_buffers r).1.data (1 + h * 65 + 2 + i * 3 + 2) =
      ((landmarksOf r.hand_landmarks h).getD i ⟨0, 0, 0⟩).z := by
  refine ⟨?_, ?_, ?_⟩
  · rw [gr_buffers_fst_slot r h _ hh (by omega) (by omega)]
    simp only [gr_packHand]
    exact (writeLandmarks_data_at (1 + h * 65 + 2) _ _ i hi hi21).1
  · rw [gr_buffers_fst_slot r h _ hh (by omega) (by omega)]
    simp only [gr_packHand]
    exact (writeLandmarks_data_at (1 + h * 65 + 2) _ _ i hi hi21).2.1
  · rw [gr_buffers_fst_slot r h _ hh (by omega) (by omega)]
    simp only [gr_packHand]
    exact (writeLandmarks_data_at (1 + h * 65 + 2) _ _ i hi hi21).2.2

theorem gr_buffers_pad (r : GestureRecognizerResult) (h i k : Nat)
    (hh : h < min r.hand_landmarks.length 2)
    (hi : (landmarksOf r.hand_landmarks h).length ≤ i) (hi21 : i < 21) (hk : k < 3) :
    (gr_buffers r).1.data (1 + h * 65 + 2 + i * 3 + k) = 0 := by
  rw [gr_buffers_fst_slot r h _ hh (by omega) (by omega)]
  simp only [gr_packHand]
  rw [writeLandmarks_data_eq _ _ _ _ (Or.inr (by
    have hm : min (landmarksOf r.hand_landmarks h).length 21 ≤
        (landmarksOf r.hand_landmarks h).length := min_le_left _ _
    omega))]
  rw [JArray.write_data, if_neg (by omega)]
  rw [JArray.write_data, if_neg (by omega)]
  rw [JArray.write_data, if_neg (by omega)]

theorem gr_buffers_snd_size (r : GestureRecognizerResult) :
    (gr_buffers r).2.size = min r.hand_landmarks.length 2 := by
  simp only [gr_buffers]
  refine Eq.trans (foldl_range_invariant (fun acc h => gr_packHand r acc h)
    (fun acc : JArray ℚ × JArray (Option String) => acc.2.size) _ _
    (fun t i _ => ?_)) ?_
  · simp only [gr_packHand]
    cases hg : firstGestureCategory r i with
    | none => simp [hg]
    | some c =>
      cases hn : c.category_name with
      | none => simp [hg, hn]
      | some s => simp [hg, hn, JArray.write_size]
  · rfl

theorem gr_buffers_snd_at (r : GestureRecognizerResult) (h : Nat)
    (hh : h < min r.hand_landmarks.length 2) :
    (gr_buffers r).2.data h =
      (match firstGestureCategory r h with
       | none => none
       | some c => c.category_name) := by
  simp only [gr_buffers]
  refine Eq.trans (foldl_range_at (fun acc k => gr_packHand r acc k)
    (fun acc : JArray ℚ × JArray (Option String) => acc.2.data h) h
    (fun t k hk => gr_packHand_snd_eq r t k h (by omega))
    (fun t k hk => gr_packHand_snd_eq r t k h (by omega))
    (fun t u htu => gr_packHand_snd_congr r t u h htu) _ _ hh)
    (Eq.trans (gr_packHand_snd_at r _ h) ?_)
  cases firstGestureCategory r h with
  | none => rfl
  | some c =>
    show (match c.category_name with
          | none => (none : Option String)
          | some s => some s) = c.category_name
    cases c.category_name with
    | none => rfl
    | some s => rfl

/-- Case analysis of the handedness flag: it is always 0 or 1, and it is 1
exactly when hand `h` has a handedness block whose first category carries a
non-null label starting with `'R'`. -/
theorem handednessValue_cases (hs : List Categories) (h : Nat) :
    (handednessValue hs h = 1 ∨ handednessValue hs h = 0) ∧
    (handednessValue hs h = 1 ↔
      ∃ cs c s, hs[h]? = some cs ∧ cs.categories[0]? = some c ∧
        c.category_name = some s ∧ s.data.head? = some 'R') := by
  unfold handednessValue
  cases hcs : hs[h]? with
  | none => simp
  | some cs =>
    cases hc : cs.categories[0]? with
    | none => simp [hc]
    | some c =>
      cases hn : c.category_name with
      | none => simp [hc, hn]
      | some s =>
        by_cases hr : s.data.head? = some 'R'
        · simp [hc, hn, hr]
        · simp [hc, hn, hr]

/-! ## Claims -/

/-- C1: for every engine result delivered with at least one hand, the packer
computes `numHands = min(hand_count, 2)` and produces a float buffer of length
exactly `1 + numHands * stride` (stride 64 for the landmark variant, 65 for
the gesture variant) whose first element equals `numHands` as a float; hands
beyond the cap of 2 are silently dropped, so a result reporting 5 hands
yields `buffer[0] = 2`. -/
theorem C1_hand_cap_and_layout (status : MpStatus) (hr : HandLandmarkerResult)
    (gres : GestureRecognizerResult) (hst : status = MpStatus.kMpOk)
    (hhr : 0 < hr.hand_landmarks.length) (hgr : 0 < gres.hand_landmarks.length) :
    (∃ b, hl_pack status (some hr) = some b ∧
      b.size = 1 + min hr.hand_landmarks.length 2 * 64 ∧
      b.data 0 = ((min hr.hand_landmarks.length 2 : Nat) : ℚ)) ∧
    (∃ p, gr_pack (some gres) = some p ∧
      p.1.size = 1 + min gres.hand_landmarks.length 2 * 65 ∧
      p.1.data 0 = ((min gres.hand_landmarks.length 2 : Nat) : ℚ)) := by
  constructor
  · refine ⟨hl_buffer hr, ?_, hl_buffer_size hr, hl_buffer_data0 hr⟩
    simp only [hl_pack]
    rw [if_pos ⟨hst, hhr⟩]
  · refine ⟨gr_buffers gres, ?_, gr_buffers_fst_size gres, gr_buffers_fst_data0 gres⟩
    simp only [gr_pack]
    rw [if_pos hgr]

/-- Witness for C1 at a fabricated five-hand result: `numHands` is capped
to 2 on both variants. -/
theorem C1_hand_cap_and_layout_witness :
    (∃ b, hl_pack MpStatus.kMpOk (some hr5) = some b ∧
      b.size = 1 + min hr5.hand_landmarks.length 2 * 64 ∧
      b.data 0 = ((min hr5.hand_landmarks.length 2 : Nat) : ℚ)) ∧
    (∃ p, gr_pack (some gres5) = some p ∧
      p.1.size = 1 + min gres5.hand_landmarks.length 2 * 65 ∧
      p.1.data 0 = ((min gres5.hand_landmarks.length 2 : Nat) : ℚ)) :=
  C1_hand_cap_and_layout MpStatus.kMpOk hr5 gres5 rfl (by decide) (by decide)

/-- C2: for every packed hand at base offset `base = 1 + h*stride` and every
landmark index `i < 21`, the coordinates `x`, `y`, `z` are written at slots
`base + o + 3*i`, `+1`, `+2`, with `o = 1` for the landmark variant and
`o = 2` for the gesture variant; known landmark coordinates reappear exactly
at those offsets, points beyond index 21 are ignored (the loop stops at 21),
and missing points leave the corresponding slots zero. -/
theorem C2_landmark_offsets (status : MpStatus) (hr : HandLandmarkerResult)
    (gres : GestureRecognizerResult) (h i : Nat)
    (hh1 : h < min hr.hand_landmarks.length 2)
    (hh2 : h < min gres.hand_landmarks.length 2) (hi21 : i < 21) :
    (∀ b, hl_pack status (some hr) = some b →
      (∀ lm, (landmarksOf hr.hand_landmarks h)[i]? = some lm →
        b.data (1 + h * 64 + 1 + i * 3) = lm.x ∧
        b.data (1 + h * 64 + 1 + i * 3 + 1) = lm.y ∧
        b.data (1 + h * 64 + 1 + i * 3 + 2) = lm.z) ∧
      ((landmarksOf hr.hand_landmarks h)[i]? = none →
        b.data (1 + h * 64 + 1 + i * 3) = 0 ∧
        b.data (1 + h * 64 + 1 + i * 3 + 1) = 0 ∧
        b.data (1 + h * 64 + 1 + i * 3 + 2) = 0)) ∧
    (∀ p, gr_pack (some gres) = some p →
      (∀ lm, (landmarksOf gres.hand_landmarks h)[i]? = some lm →
        p.1.data (1 + h * 65 + 2 + i * 3) = lm.x ∧
        p.1.data (1 + h * 65 + 2 + i * 3 + 1) = lm.y ∧
        p.1.data (1 + h * 65 + 2 + i * 3 + 2) = lm.z) ∧
      ((landmarksOf gres.hand_landmarks h)[i]? = none →
        p.1.data (1 + h * 65 + 2 + i * 3) = 0 ∧
        p.1.data (1 + h * 65 + 2 + i * 3 + 1) = 0 ∧
        p.1.data (1 + h * 65 + 2 + i * 3 + 2) = 0)) := by
  constructor
  · intro b hb
    simp only [hl_pack] at hb
    split at hb
    · injection hb with e
      subst e
      constructor
      · intro lm hlm
        have hilen : i < (landmarksOf hr.hand_landmarks h).length := by
          by_contra hle
          rw [List.getElem?_eq_none (by omega)] at hlm
          exact Option.noConfusion hlm
        have hget : (landmarksOf hr.hand_landmarks h).getD i ⟨0, 0, 0⟩ = lm := by
          rw [List.getD_eq_getElem?_getD, hlm]
          rfl
        have h3 := hl_buffer_lm hr h i hh1 hilen hi21
        rw [hget] at h3
        exact h3
      · intro hnone
        have hlen : (landmarksOf hr.hand_landmarks h).length ≤ i := by
          by_contra hlt
          rw [List.getElem?_eq_getElem (by omega)] at hnone
          exact Option.noConfusion hnone
        refine ⟨?_, ?_, ?_⟩
        · have h0 := hl_buffer_pad hr h i 0 hh1 hlen hi21 (by omega)
          simpa using h0
        · exact hl_buffer_pad hr h i 1 hh1 hlen hi21 (by omega)
        · exact hl_buffer_pad hr h i 2 hh1 hlen hi21 (by omega)
    · exact Option.noConfusion hb
  · intro p hp
    simp only [gr_pack] at hp
    split at hp
    · injection hp with e
      subst e
      constructor
      · intro lm hlm
        have hilen : i < (landmarksOf gres.hand_landmarks h).length := by
          by_contra hle
          rw [List.getElem?_eq_none (by omega)] at hlm
          exact Option.noConfusion hlm
        have hget : (landmarksOf gres.hand_landmarks h).getD i ⟨0, 0, 0⟩ = lm := by
          rw [List.getD_eq_getElem?_getD, hlm]
          rfl
        have h3 := gr_buffers_lm gres h i hh2 hilen hi21
        rw [hget] at h3
        exact h3
      · intro hnone
        have hlen : (landmarksOf gres.hand_landmarks h).length ≤ i := by
          by_contra hlt
          rw [List.getElem?_eq_getElem (by omega)] at hnone
          exact Option.noConfusion hnone
        refine ⟨?_, ?_, ?_⟩
        · have h0 := gr_buffers_pad gres h i 0 hh2 hlen hi21 (by omega)
          simpa using h0
        · exact gr_buffers_pad gres h i 1 hh2 hlen hi21 (by omega)
        · exact gr_buffers_pad gres h i 2 hh2 hlen hi21 (by omega)
    · exact Option.noConfusion hp

/-- Witness for C2: hand 0 of the sample results carries the point
`(1/2, 1/4, 1/8)` at landmark index 0, and it reappears at the computed
offsets of both variants. -/
theorem C2_landmark_offsets_witness :
    ((hl_buffer hr5).data (1 + 0 * 64 + 1 + 0 * 3) = 1/2 ∧
     (hl_buffer hr5).data (1 + 0 * 64 + 1 + 0 * 3 + 1) = 1/4 ∧
     (hl_buffer hr5).data (1 + 0 * 64 + 1 + 0 * 3 + 2) = 1/8) ∧
    ((gr_buffers gres5).1.data (1 + 0 * 65 + 2 + 0 * 3) = 1/2 ∧
     (gr_buffers gres5).1.data (1 + 0 * 65 + 2 + 0 * 3 + 1) = 1/4 ∧
     (gr_buffers gres5).1.data (1 + 0 * 65 + 2 + 0 * 3 + 2) = 1/8) := by
  have h := C2_landmark_offsets MpStatus.kMpOk hr5 gres5 0 0
    (by decide) (by decide) (by decide)
  exact ⟨(h.1 (hl_buffer hr5) rfl).1 ⟨1/2, 1/4, 1/8⟩ rfl,
         (h.2 (gr_buffers gres5) rfl).1 ⟨1/2, 1/4, 1/8⟩ rfl⟩

/-- C3: for every packed hand, the handedness slot is written as exactly 1.0
when the first character of the first handedness category's label is `'R'`,
and as 0.0 for every other input, including a missing handedness entry, zero
categories, a null label, or an empty label. -/
theorem C3_handedness_flag (status : MpStatus) (hr : HandLandmarkerResult)
    (gres : GestureRecognizerResult) (h : Nat)
    (hh1 : h < min hr.hand_landmarks.length 2)
    (hh2 : h < min gres.hand_landmarks.length 2) :
    (∀ b, hl_pack status (some hr) = some b →
      (b.data (1 + h * 64) = 1 ∨ b.data (1 + h * 64) = 0) ∧
      (b.data (1 + h * 64) = 1 ↔
        ∃ cs c s, hr.handedness[h]? = some cs ∧ cs.categories[0]? = some c ∧
          c.category_name = some s ∧ s.data.head? = some 'R')) ∧
    (∀ p, gr_pack (some gres) = some p →
      (p.1.data (1 + h * 65) = 1 ∨ p.1.data (1 + h * 65) = 0) ∧
      (p.1.data (1 + h * 65) = 1 ↔
        ∃ cs c s, gres.handedness[h]? = some cs ∧ cs.categories[0]? = some c ∧
          c.category_name = some s ∧ s.data.head? = some 'R')) := by
  constructor
  · intro b hb
    simp only [hl_pack] at hb
    split at hb
    · injection hb with e
      subst e
      rw [hl_buffer_base hr h hh1]
      exact handednessValue_cases hr.handedness h
    · exact Option.noConfusion hb
  · intro p hp
    simp only [gr_pack] at hp
    split at hp
    · injection hp with e
      subst e
      rw [gr_buffers_base gres h hh2]
      exact handednessValue_cases gres.handedness h
    · exact Option.noConfusion hp

/-- Witness for C3 at the sample results: hand 0 is labelled `Right`, so the
flag slot holds 1.0 on both variants (extracted through the equivalence). -/
theorem C3_handedness_flag_witness :
    (hl_buffer hr5).data (1 + 0 * 64) = 1 ∧
    (gr_buffers gres5).1.data (1 + 0 * 65) = 1 := by
  have h := C3_handedness_flag MpStatus.kMpOk hr5 gres5 0 (by decide) (by decide)
  have h1 := h.1 (hl_buffer hr5) rfl
  have h2 := h.2 (gr_buffers gres5) rfl
  exact ⟨h1.2.mpr ⟨⟨[⟨some "Right", 9/10⟩]⟩, ⟨some "Right", 9/10⟩, "Right", rfl, rfl, rfl, rfl⟩,
         h2.2.mpr ⟨⟨[⟨some "Right", 9/10⟩]⟩, ⟨some "Right", 9/10⟩, "Right", rfl, rfl, rfl, rfl⟩⟩

/-- C5: in the gesture variant, for every packed hand `h`: if a gesture
category exists for that hand, its score is written at slot `base + 1` and
its label string is placed at index `h` of the parallel label array;
otherwise 0.0 is written at `base + 1` and the label slot at index `h` is
left null. -/
theorem C5_gesture_score_and_label (gres : GestureRecognizerResult) (h : Nat)
    (hh : h < min gres.hand_landmarks.length 2) :
    ∀ p, gr_pack (some gres) = some p →
      (∀ c, firstGestureCategory gres h = some c →
        p.1.data (1 + h * 65 + 1) = c.score ∧ p.2.data h = c.category_name) ∧
      (firstGestureCategory gres h = none →
        p.1.data (1 + h * 65 + 1) = 0 ∧ p.2.data h = none) := by
  intro p hp
  simp only [gr_pack] at hp
  split at hp
  · injection hp with e
    subst e
    constructor
    · intro c hc
      constructor
      · rw [gr_buffers_score gres h hh, hc]
      · rw [gr_buffers_snd_at gres h hh, hc]
    · intro hc
      constructor
      · rw [gr_buffers_score gres h hh, hc]
      · rw [gr_buffers_snd_at gres h hh, hc]
  · exact Option.noConfusion hp

/-- Witness for C5: the sample gesture result has a `Thumb_Up` category with
score 3/4 for hand 0, and no category for hand 1. -/
theorem C5_gesture_score_and_label_witness :
    ((gr_buffers gres5).1.data (1 + 0 * 65 + 1) = 3/4 ∧
     (gr_buffers gres5).2.data 0 = some "Thumb_Up") ∧
    ((gr_buffers gres5).1.data (1 + 1 * 65 + 1) = 0 ∧
     (gr_buffers gres5).2.data 1 = none) := by
  have h0 := C5_gesture_score_and_label gres5 0 (by decide) (gr_buffers gres5) rfl
  have h1 := C5_gesture_score_and_label gres5 1 (by decide) (gr_buffers gres5) rfl
  exact ⟨h0.1 ⟨some "Thumb_Up", 3/4⟩ rfl, h1.2 rfl⟩

/-- C4 counterexample: on the synchronous gesture path a failed recognition
performs no callback invocation at all (the call just returns `JNI_FALSE`),
so the claim that the registered callback is invoked with a null result
marker fails there. -/
theorem C4_counterexample_sync_failure :
    (nativeRecognizeGestureForVideo pix3 1 1 MpStatus.kMpOk (MpStatus.kMpErr 1)
        grZero 7).invocation ≠ some (none, none, 7) ∧
    (nativeRecognizeGestureForVideo pix3 1 1 MpStatus.kMpOk (MpStatus.kMpErr 1)
        grZero 7).invocation = none := by
  refine ⟨?_, rfl⟩
  intro hcontra
  exact Option.noConfusion hcontra

/-- C4 (amended): a zero-hand or failed-status delivery on the asynchronous
landmark path builds no buffer and invokes the callback with a null buffer;
on the synchronous gesture path a zero-hand result invokes the callback with
null buffer and null label array, while a failed image build or recognition
returns `JNI_FALSE` without invoking the callback at all. -/
theorem C4_amended_null_delivery (status : MpStatus) (res : Option HandLandmarkerResult)
    (c : Nat) (att : Bool) (ts : Int) (pd : List Nat) (w hg : Nat)
    (gres : GestureRecognizerResult)
    (hfail : status ≠ MpStatus.kMpOk ∨ hlHandCount res = 0)
    (hz : gres.hand_landmarks.length = 0) :
    hl_pack status res = none ∧
    (hl_on_result true (some c) GetEnvCode.jniOk att status res ts).invocation =
      some (c, none, ts) ∧
    ((nativeRecognizeGestureForVideo pd w hg MpStatus.kMpOk MpStatus.kMpOk
        gres ts).returnValue = true ∧
     (nativeRecognizeGestureForVideo pd w hg MpStatus.kMpOk MpStatus.kMpOk
        gres ts).invocation = some (none, none, ts)) ∧
    (∀ ist rst : MpStatus, ist ≠ MpStatus.kMpOk ∨ rst ≠ MpStatus.kMpOk →
      (nativeRecognizeGestureForVideo pd w hg ist rst gres ts).invocation = none ∧
      (nativeRecognizeGestureForVideo pd w hg ist rst gres ts).returnValue = false) := by
  have hpack : hl_pack status res = none := by
    cases res with
    | none => rfl
    | some r =>
      simp only [hl_pack]
      rw [if_neg]
      rintro ⟨h1, h2⟩
      rcases hfail with hf | hf
      · exact hf h1
      · simp only [hlHandCount] at hf
        omega
  refine ⟨hpack, ?_, ?_, ?_⟩
  · simp [hl_on_result, attach_jvm, hpack]
  · constructor
    · simp [nativeRecognizeGestureForVideo]
    · simp [nativeRecognizeGestureForVideo, gr_deliver_result, gr_pack, hz]
  · intro ist rst hbad
    by_cases hist : ist = MpStatus.kMpOk
    · subst hist
      have hrst : rst ≠ MpStatus.kMpOk := by
        rcases hbad with hbad | hbad
        · exact absurd rfl hbad
        · exact hbad
      constructor <;> simp [nativeRecognizeGestureForVideo, hrst]
    · constructor <;> simp [nativeRecognizeGestureForVideo, hist]

/-- Witness for the amended C4: a failed status on the async path yields a
null-buffer invocation, a zero-hand synchronous recognition delivers null
arrays with a true return, and a failed synchronous recognition delivers
nothing and returns false. -/
theorem C4_amended_null_delivery_witness :
    hl_pack (MpStatus.kMpErr 0) none = none ∧
    (hl_on_result true (some 3) GetEnvCode.jniOk true (MpStatus.kMpErr 0) none 5).invocation =
      some (3, none, 5) ∧
    ((nativeRecognizeGestureForVideo pix3 1 1 MpStatus.kMpOk MpStatus.kMpOk
        grZero 5).returnValue = true ∧
     (nativeRecognizeGestureForVideo pix3 1 1 MpStatus.kMpOk MpStatus.kMpOk
        grZero 5).invocation = some (none, none, 5)) ∧
    (∀ ist rst : MpStatus, ist ≠ MpStatus.kMpOk ∨ rst ≠ MpStatus.kMpOk →
      (nativeRecognizeGestureForVideo pix3 1 1 ist rst grZero 5).invocation = none ∧
      (nativeRecognizeGestureForVideo pix3 1 1 ist rst grZero 5).returnValue = false) :=
  C4_amended_null_delivery (MpStatus.kMpErr 0) none 3 true 5 pix3 1 1 grZero
    (Or.inl (by decide)) rfl

/-- Helper for C6: a delivery through `hl_on_result` with callback reference
`c` either performs no invocation or invokes exactly `c`. -/
theorem hl_on_result_target (jvm : Bool) (c : Nat) (genv : GetEnvCode) (att : Bool)
    (status : MpStatus) (res : Option HandLandmarkerResult) (ts : Int) :
    (hl_on_result jvm (some c) genv att status res ts).invocation = none ∨
    (hl_on_result jvm (some c) genv att status res ts).invocation =
      some (c, hl_pack status res, ts) := by
  cases jvm <;> cases genv <;> cases att <;> simp [hl_on_result, attach_jvm]

/-- C6: at most one callback reference is held per pipeline at a time, and a
create call releases the previously held reference before installing the new
one, after which deliveries only ever target the new reference. -/
theorem C6_callback_replacement (st : BridgeRefs) (cb oldH oldG : Nat) :
    ((nativeCreateLandmarker st cb).hl_cb = some cb ∧
     (st.hl_cb = some oldH → oldH ∈ (nativeCreateLandmarker st cb).released) ∧
     (∀ (jvm : Bool) (genv : GetEnvCode) (att : Bool) (status : MpStatus)
        (res : Option HandLandmarkerResult) (ts : Int)
        (inv : Nat × Option (JArray ℚ) × Int),
        (hl_on_result jvm (nativeCreateLandmarker st cb).hl_cb genv att status
          res ts).invocation = some inv → inv.1 = cb)) ∧
    ((nativeCreateGestureRecognizer st cb).gr_cb = some cb ∧
     (st.gr_cb = some oldG → oldG ∈ (nativeCreateGestureRecognizer st cb).released)) := by
  have hset : (nativeCreateLandmarker st cb).hl_cb = some cb := by
    cases hcb : st.hl_cb <;> simp [nativeCreateLandmarker, hcb]
  refine ⟨⟨hset, ?_, ?_⟩, ?_, ?_⟩
  · intro hold
    simp [nativeCreateLandmarker, hold]
  · intro jvm genv att status res ts inv hinv
    rw [hset] at hinv
    rcases hl_on_result_target jvm cb genv att status res ts with hN | hS
    · rw [hN] at hinv
      exact Option.noConfusion hinv
    · rw [hS] at hinv
      injection hinv with e
      rw [← e]
  · cases hcb : st.gr_cb <;> simp [nativeCreateGestureRecognizer, hcb]
  · intro hold
    simp [nativeCreateGestureRecognizer, hold]

/-- Witness for C6: replacing held references 5 (landmarker) and 6 (gesture)
with 7 releases both old references and installs the new one. -/
theorem C6_callback_replacement_witness :
    (nativeCreateLandmarker ⟨some 5, some 6, []⟩ 7).hl_cb = some 7 ∧
    5 ∈ (nativeCreateLandmarker ⟨some 5, some 6, []⟩ 7).released ∧
    (nativeCreateGestureRecognizer ⟨some 5, some 6, []⟩ 7).gr_cb = some 7 ∧
    6 ∈ (nativeCreateGestureRecognizer ⟨some 5, some 6, []⟩ 7).released := by
  have h := C6_callback_replacement ⟨some 5, some 6, []⟩ 7 5 6
  exact ⟨h.1.1, h.1.2.1 rfl, h.2.1, h.2.2 rfl⟩

/-- C7: the asynchronous submit frees the image when the engine rejects the
submission, but the synchronous gesture call does not: a failed recognition
returns `JNI_FALSE` with the created image neither consumed nor freed — the
image is leaked, contradicting the no-leak claim. -/
theorem C7_sync_image_leak :
    ((nativeDetectAsync pix3 1 1 MpStatus.kMpOk (MpStatus.kMpErr 1)).imageCreated = true ∧
     (nativeDetectAsync pix3 1 1 MpStatus.kMpOk (MpStatus.kMpErr 1)).imageFreed = true) ∧
    ((nativeRecognizeGestureForVideo pix3 1 1 MpStatus.kMpOk (MpStatus.kMpErr 1)
        grZero 0).imageCreated = true ∧
     (nativeRecognizeGestureForVideo pix3 1 1 MpStatus.kMpOk (MpStatus.kMpErr 1)
        grZero 0).recognized = false ∧
     (nativeRecognizeGestureForVideo pix3 1 1 MpStatus.kMpOk (MpStatus.kMpErr 1)
        grZero 0).imageFreed = false ∧
     (nativeRecognizeGestureForVideo pix3 1 1 MpStatus.kMpOk (MpStatus.kMpErr 1)
        grZero 0).returnValue = false) :=
  ⟨⟨rfl, rfl⟩, rfl, rfl, rfl, rfl⟩

/-- C8: the bridge detaches the callback thread exactly when it attached it
(never returning to the engine with a bridge-made attachment still held), an
already-attached thread is never re-attached, and whenever the runtime and a
callback are available the registered callback is invoked and the per-call
local reference is released. -/
theorem C8_attach_detach_balance (jvm : Bool) (cb : Option Nat) (genv : GetEnvCode)
    (att : Bool) (status : MpStatus) (res : Option HandLandmarkerResult) (ts : Int) :
    ((hl_on_result jvm cb genv att status res ts).detachedAtEnd =
      (hl_on_result jvm cb genv att status res ts).attachedByBridge) ∧
    (genv = GetEnvCode.jniOk →
      (hl_on_result jvm cb genv att status res ts).attachedByBridge = false) ∧
    (∀ c : Nat, jvm = true → cb = some c → (attach_jvm genv att).env_ok = true →
      (hl_on_result jvm cb genv att status res ts).invocation =
        some (c, hl_pack status res, ts) ∧
      (hl_on_result jvm cb genv att status res ts).localRefReleased = true ∧
      (hl_on_result jvm cb genv att status res ts).attachedByBridge =
        (attach_jvm genv att).needs_detach) := by
  cases cb with
  | none => cases jvm <;> cases genv <;> cases att <;> simp [hl_on_result, attach_jvm]
  | some c0 => cases jvm <;> cases genv <;> cases att <;> simp [hl_on_result, attach_jvm]

/-- Witness for C8 on a detached engine thread with a registered callback:
the bridge attaches, invokes, releases, and detaches. -/
theorem C8_attach_detach_balance_witness :
    ((hl_on_result true (some 3) GetEnvCode.jniEDetached true MpStatus.kMpOk none 0).detachedAtEnd =
      (hl_on_result true (some 3) GetEnvCode.jniEDetached true MpStatus.kMpOk none 0).attachedByBridge) ∧
    (hl_on_result true (some 3) GetEnvCode.jniEDetached true MpStatus.kMpOk none 0).invocation =
      some (3, hl_pack MpStatus.kMpOk none, 0) ∧
    (hl_on_result true (some 3) GetEnvCode.jniEDetached true MpStatus.kMpOk none 0).localRefReleased = true ∧
    (hl_on_result true (some 3) GetEnvCode.jniEDetached true MpStatus.kMpOk none 0).attachedByBridge =
      (attach_jvm GetEnvCode.jniEDetached true).needs_detach := by
  have h := C8_attach_detach_balance true (some 3) GetEnvCode.jniEDetached true
    MpStatus.kMpOk none 0
  have h3 := h.2.2 3 rfl rfl rfl
  exact ⟨h.1, h3.1, h3.2.1, h3.2.2⟩

/-- C9 counterexample: closing the same landmarker handle twice issues the
native engine close a second time — the second close is not a no-op, so close
is not idempotent at this layer. -/
theorem C9_counterexample_double_close :
    (nativeCloseLandmarker 7 ((nativeCloseLandmarker 7 (some 3)).1)).2 ≠ [] ∧
    (nativeCloseLandmarker 7 ((nativeCloseLandmarker 7 (some 3)).1)).2 =
      [CloseAction.engineClose 7] := by
  constructor
  · intro hcontra
    exact List.noConfusion hcontra
  · rfl

/-- C9 (amended): close always releases the engine instance and, when held,
the callback reference, and clears the stored reference; the callback release
is idempotent (a second close does not release it again), but the engine
close is issued unconditionally on every call, so closing the same handle
twice issues a second engine close instead of being a no-op. -/
theorem C9_amended_close_behavior (handle : Int) (r : Nat) :
    nativeCloseLandmarker handle (some r) =
      (none, [CloseAction.engineClose handle, CloseAction.releaseCallback r]) ∧
    nativeCloseLandmarker handle ((nativeCloseLandmarker handle (some r)).1) =
      (none, [CloseAction.engineClose handle]) ∧
    nativeCloseGestureRecognizer handle (some r) =
      (none, [CloseAction.engineClose handle, CloseAction.releaseCallback r]) ∧
    nativeCloseGestureRecognizer handle ((nativeCloseGestureRecognizer handle (some r)).1) =
      (none, [CloseAction.engineClose handle]) :=
  ⟨rfl, rfl, rfl, rfl⟩

/-- C10 counterexample: an empty pixel buffer with width = height = 1 (so
`width*height*3 = 3 > 0` bytes) is not rejected — the image build and the
submit both proceed and the constructor's read runs past the supplied
buffer, on both entry points. -/
theorem C10_counterexample_no_length_check :
    ((nativeDetectAsync [] 1 1 MpStatus.kMpOk MpStatus.kMpOk).imageCreated = true ∧
     (nativeDetectAsync [] 1 1 MpStatus.kMpOk MpStatus.kMpOk).submitted = true ∧
     (nativeDetectAsync [] 1 1 MpStatus.kMpOk MpStatus.kMpOk).bytesRequested = 3 ∧
     (nativeDetectAsync [] 1 1 MpStatus.kMpOk MpStatus.kMpOk).outOfBoundsRead = true) ∧
    ((nativeRecognizeGestureForVideo [] 1 1 MpStatus.kMpOk MpStatus.kMpOk grZero 0).returnValue = true ∧
     (nativeRecognizeGestureForVideo [] 1 1 MpStatus.kMpOk MpStatus.kMpOk grZero 0).outOfBoundsRead = true) :=
  ⟨⟨rfl, rfl, rfl, rfl⟩, rfl, rfl⟩

/-- C10 (amended): the bridge never validates the supplied buffer's length:
it passes `dataSize = width*height*3` with the raw pointer to the engine's
image constructor, the constructor's read covers `dataSize` bytes (past the
end of a shorter buffer), and the call's control flow is entirely
independent of the actual buffer length. -/
theorem C10_amended_no_validation (pd pd2 : List Nat) (w hg : Nat)
    (ist dst : MpStatus) (gres : GestureRecognizerResult) (ts : Int) :
    ((nativeDetectAsync pd w hg ist dst).bytesRequested = w * hg * 3 ∧
     (nativeDetectAsync pd w hg ist dst).outOfBoundsRead =
       decide (pd.length < w * hg * 3) ∧
     (nativeDetectAsync pd w hg ist dst).imageCreated =
       (nativeDetectAsync pd2 w hg ist dst).imageCreated ∧
     (nativeDetectAsync pd w hg ist dst).submitted =
       (nativeDetectAsync pd2 w hg ist dst).submitted ∧
     (nativeDetectAsync pd w hg ist dst).imageFreed =
       (nativeDetectAsync pd2 w hg ist dst).imageFreed) ∧
    ((nativeRecognizeGestureForVideo pd w hg ist dst gres ts).bytesRequested = w * hg * 3 ∧
     (nativeRecognizeGestureForVideo pd w hg ist dst gres ts).outOfBoundsRead =
       decide (pd.length < w * hg * 3) ∧
     (nativeRecognizeGestureForVideo pd w hg ist dst gres ts).returnValue =
       (nativeRecognizeGestureForVideo pd2 w hg ist dst gres ts).returnValue ∧
     (nativeRecognizeGestureForVideo pd w hg ist dst gres ts).invocation =
       (nativeRecognizeGestureForVideo pd2 w hg ist dst gres ts).invocation ∧
     (nativeRecognizeGestureForVideo pd w hg ist dst gres ts).imageFreed =
       (nativeRecognizeGestureForVideo pd2 w hg ist dst gres ts).imageFreed) := by
  by_cases hi : ist = MpStatus.kMpOk <;> by_cases hd : dst = MpStatus.kMpOk <;>
    simp [nativeDetectAsync, nativeRecognizeGestureForVideo, hi, hd]
